import Mathlib

/-!
Shallow embedding of the alert-polling core of
`src/User_awareness/telegram_bot.py` (the `should_alert`, `track_alert`
and `poll_alerts` functions), faithful to Python semantics on JSON-shaped
data: dictionary `.get` with defaults, `or`-truthiness, comparisons that
raise `TypeError` on non-numeric operands, attribute errors on `.get`
applied to non-dicts, and exception propagation out of the poll loop
(which has no try/except around its body).

Numeric JSON values are modelled as integers; every concrete value
appearing in the specification's scenarios is an integer, and only order
comparisons are performed on them. Calls to `int(time.time())` are
modelled by an external clock `clock : Nat → Int` sampled at an
incrementing tick counter carried in the state, so that time may advance
between any two samples. Message formatting is abstracted: a delivery is
recorded as the structured event (chat, lab id, kind, sensor id).
-/

mutual
/-- JSON values as returned by `requests.Response.json()`. -/
inductive Json where
  | null
  | num (n : Int)
  | str (s : String)
  | bool (b : Bool)
  | arr (elems : JsonList)
  | obj (fields : JsonFields)
  deriving DecidableEq
/-- Elements of a JSON array. -/
inductive JsonList where
  | nil
  | cons (head : Json) (tail : JsonList)
  deriving DecidableEq
/-- Key/value bindings of a JSON object. -/
inductive JsonFields where
  | nil
  | cons (key : String) (val : Json) (tail : JsonFields)
  deriving DecidableEq
end

/-- Build a JSON array from a Lean list. -/
def JsonList.ofList : List Json → JsonList
  | [] => .nil
  | x :: xs => .cons x (ofList xs)

/-- View a JSON array as a Lean list. -/
def JsonList.toList : JsonList → List Json
  | .nil => []
  | .cons x xs => x :: xs.toList

/-- Build a JSON object from a Lean list of bindings. -/
def JsonFields.ofList : List (String × Json) → JsonFields
  | [] => .nil
  | (k, v) :: xs => .cons k v (ofList xs)

/-- Shorthand for array literals. -/
def jarr (xs : List Json) : Json := .arr (JsonList.ofList xs)

/-- Shorthand for object literals. -/
def jobj (fs : List (String × Json)) : Json := .obj (JsonFields.ofList fs)

/-- Python exceptions that the poll loop can raise (it has no handler,
so any of these kills the polling thread). -/
inductive PyErr where
  | attributeError
  | typeError
  | sendError
  deriving DecidableEq

/-- Python truthiness of a JSON value (`bool(x)`). -/
def Json.truthy : Json → Bool
  | .null => false
  | .num n => n != 0
  | .str s => s != ""
  | .bool b => b
  | .arr .nil => false
  | .arr (.cons _ _) => true
  | .obj .nil => false
  | .obj (.cons _ _ _) => true

/-- First binding of a key in a JSON object's field list. -/
def lookupField : JsonFields → String → Option Json
  | .nil, _ => none
  | .cons k v rest, key => if k = key then some v else lookupField rest key

/-- Keys of a JSON object, as JSON strings (what Python yields when
iterating a dict). -/
def JsonFields.keys : JsonFields → List Json
  | .nil => []
  | .cons k _ rest => Json.str k :: keys rest

/-- Python `x.get(key, d)`: defined on dicts, `AttributeError` otherwise. -/
def Json.get (j : Json) (key : String) (d : Json) : Except PyErr Json :=
  match j with
  | .obj fs => .ok ((lookupField fs key).getD d)
  | _ => .error .attributeError

/-- Python iteration `for x in j`: lists yield elements, dicts yield keys,
strings yield characters, everything else raises `TypeError`. -/
def Json.iter : Json → Except PyErr (List Json)
  | .arr xs => .ok xs.toList
  | .obj fs => .ok (JsonFields.keys fs)
  | .str s => .ok (s.data.map (fun c => Json.str c.toString))
  | _ => .error .typeError

/-- Python `a > b` on JSON values: numeric against numeric (booleans count
as 0/1), string against string, `TypeError` otherwise. -/
def pyGt (a b : Json) : Except PyErr Bool :=
  match a, b with
  | .num x, .num y => .ok (decide (y < x))
  | .num x, .bool y => .ok (decide ((if y then (1 : Int) else 0) < x))
  | .bool x, .num y => .ok (decide (y < (if x then (1 : Int) else 0)))
  | .bool x, .bool y => .ok (decide ((if y then (1 : Int) else 0) < (if x then 1 else 0)))
  | .str x, .str y => .ok (decide (y < x))
  | _, _ => .error .typeError

/-- Python `a < b` on JSON values, same domain as `pyGt`. -/
def pyLt (a b : Json) : Except PyErr Bool :=
  match a, b with
  | .num x, .num y => .ok (decide (x < y))
  | .num x, .bool y => .ok (decide (x < (if y then (1 : Int) else 0)))
  | .bool x, .num y => .ok (decide ((if x then (1 : Int) else 0) < y))
  | .bool x, .bool y => .ok (decide ((if x then (1 : Int) else 0) < (if y then 1 else 0)))
  | .str x, .str y => .ok (decide (x < y))
  | _, _ => .error .typeError

/-- Key of the `_last_alert` dictionary: `(lab_id, kind)`; the lab id is
whatever JSON value `lab.get("lab_id")` produced. -/
abbrev AlertKey := Json × String

/-- Lookup in the association-list model of a Python dict. -/
def getKey : List (AlertKey × Int) → AlertKey → Option Int
  | [], _ => none
  | (k, v) :: rest, key => if k = key then some v else getKey rest key

/-- Update/insert in the association-list model of a Python dict. -/
def setKey : List (AlertKey × Int) → AlertKey → Int → List (AlertKey × Int)
  | [], key, v => [(key, v)]
  | (k, w) :: rest, key, v =>
      if k = key then (key, v) :: rest else (k, w) :: setKey rest key v

/-- Process-lifetime mutable state of the bot that the poll loop touches:
the `_last_alert` dictionary, the `KNOWN_CHATS` set (as a list in its
iteration order), and the tick counter at which the next
`int(time.time())` call samples the external clock. -/
structure BotState where
  lastAlert : List (AlertKey × Int)
  knownChats : List Int
  tick : Nat
  deriving DecidableEq

/-- Value of `_last_alert.get((lab_id, kind), 0)`. -/
def lastTimeD0 (s : BotState) (labId : Json) (kind : String) : Int :=
  (getKey s.lastAlert (labId, kind)).getD 0

/-- Source `track_alert`: `_last_alert[(lab_id, kind)] = int(time.time())`.
Returns the updated state and the recorded timestamp. -/
def track_alert (clock : Nat → Int) (s : BotState) (labId : Json) (kind : String) :
    BotState × Int :=
  let t := clock s.tick
  ({ s with lastAlert := setKey s.lastAlert (labId, kind) t, tick := s.tick + 1 }, t)

/-- Source `should_alert`: `(int(time.time()) - _last_alert.get((lab_id, kind), 0))
>= ALERT_COOLDOWN_SEC`. Returns the decision and the state with the time
sample consumed. -/
def should_alert (clock : Nat → Int) (cooldown : Int) (s : BotState)
    (labId : Json) (kind : String) : Bool × BotState :=
  let last := lastTimeD0 s labId kind
  (decide (cooldown ≤ clock s.tick - last), { s with tick := s.tick + 1 })

/-- One delivered alert message: `bot.sendMessage(chat, msg)` for the
message announcing `kind` for lab `labId` triggered by sensor
`sensorId`. -/
structure SentMsg where
  chat : Int
  labId : Json
  kind : String
  sensorId : Json
  deriving DecidableEq

/-- Outcome of a fragment of the poll-loop body: the state after it, the
messages it delivered, the `track_alert` events it recorded (key and
timestamp), and the exception it raised, if any (state changes made
before the exception persist, as the state is Python module globals). -/
structure StepOut where
  state : BotState
  sent : List SentMsg
  firings : List (AlertKey × Int)
  err : Option PyErr
  deriving DecidableEq

/-- Fragment that does nothing. -/
def StepOut.pure (s : BotState) : StepOut := ⟨s, [], [], none⟩

/-- Fragment raising `e` from state `s` with no output. -/
def StepOut.raise (s : BotState) (e : PyErr) : StepOut := ⟨s, [], [], some e⟩

/-- Sequencing of fragments: the second runs only if the first did not
raise, and outputs accumulate. -/
def StepOut.andThen (a : StepOut) (f : BotState → StepOut) : StepOut :=
  match a.err with
  | some _ => a
  | none =>
      let b := f a.state
      ⟨b.state, a.sent ++ b.sent, a.firings ++ b.firings, b.err⟩

/-- The delivery loop `for chat in KNOWN_CHATS: bot.sendMessage(chat, msg)`:
`send c = false` means `sendMessage` raises for chat `c`; the raise stops
the loop, chats not yet reached are not attempted. -/
def sendLoop (send : Int → Bool) (chats : List Int) (labId : Json) (kind : String)
    (sensorId : Json) : List SentMsg × Option PyErr :=
  match chats with
  | [] => ([], none)
  | c :: rest =>
      if send c then
        let (ms, e) := sendLoop send rest labId kind sensorId
        (⟨c, labId, kind, sensorId⟩ :: ms, e)
      else ([], some .sendError)

/-- One of the four guarded blocks inside `poll_alerts`, e.g.
`if t > thr.get("t_high", 999) and should_alert(lab_id, "t_high"): ...
track_alert(lab_id, "t_high")`. `high = true` selects the `>` comparison
(sentinel 999), `high = false` the `<` comparison (sentinel −999). -/
def checkBound (clock : Nat → Int) (cooldown : Int) (send : Int → Bool)
    (labId sensorId : Json) (thr : Json) (value : Json)
    (boundKey kind : String) (sentinel : Int) (high : Bool) (s : BotState) : StepOut :=
  match thr.get boundKey (.num sentinel) with
  | .error e => .raise s e
  | .ok bound =>
      match (if high then pyGt value bound else pyLt value bound) with
      | .error e => .raise s e
      | .ok cond =>
          if cond then
            let (ok, s1) := should_alert clock cooldown s labId kind
            if ok then
              match sendLoop send s1.knownChats labId kind sensorId with
              | (msgs, some e) => ⟨s1, msgs, [], some e⟩
              | (msgs, none) =>
                  let (s2, t) := track_alert clock s1 labId kind
                  ⟨s2, msgs, [((labId, kind), t)], none⟩
            else StepOut.pure s1
          else StepOut.pure s

/-- Per-sensor body of `poll_alerts` (lines 90–115): read `reading` (with
the `or {}` fallback), `sensor_id`, `t` and `h`, then run the two
temperature checks when `t` is not `None` and the two humidity checks
when `h` is not `None`. -/
def processSensor (clock : Nat → Int) (cooldown : Int) (send : Int → Bool)
    (labId thr sensor : Json) (s : BotState) : StepOut :=
  match sensor.get "reading" .null with
  | .error e => .raise s e
  | .ok rdRaw =>
      let rd := if rdRaw.truthy then rdRaw else .obj .nil
      match sensor.get "sensor_id" .null with
      | .error e => .raise s e
      | .ok sid =>
          match rd.get "t" .null with
          | .error e => .raise s e
          | .ok t =>
              match rd.get "h" .null with
              | .error e => .raise s e
              | .ok h =>
                  let tempPart : StepOut :=
                    if t ≠ Json.null then
                      (checkBound clock cooldown send labId sid thr t "t_high" "t_high" 999 true s).andThen
                        (checkBound clock cooldown send labId sid thr t "t_low" "t_low" (-999) false)
                    else StepOut.pure s
                  tempPart.andThen (fun sMid =>
                    if h ≠ Json.null then
                      (checkBound clock cooldown send labId sid thr h "h_high" "h_high" 999 true sMid).andThen
                        (checkBound clock cooldown send labId sid thr h "h_low" "h_low" (-999) false)
                    else StepOut.pure sMid)

/-- Iteration `for sensor in lab.get("sensors", [])`. -/
def processSensors (clock : Nat → Int) (cooldown : Int) (send : Int → Bool)
    (labId thr : Json) : List Json → BotState → StepOut
  | [], s => StepOut.pure s
  | sensor :: rest, s =>
      (processSensor clock cooldown send labId thr sensor s).andThen
        (processSensors clock cooldown send labId thr rest)

/-- Per-lab body of `poll_alerts` (lines 86–89): read `lab_id` and
`thresholds`, then iterate the sensors list. -/
def processLab (clock : Nat → Int) (cooldown : Int) (send : Int → Bool)
    (lab : Json) (s : BotState) : StepOut :=
  match lab.get "lab_id" .null with
  | .error e => .raise s e
  | .ok labId =>
      match lab.get "thresholds" (.obj .nil) with
      | .error e => .raise s e
      | .ok thr =>
          match lab.get "sensors" (.arr .nil) with
          | .error e => .raise s e
          | .ok sensorsJ =>
              match sensorsJ.iter with
              | .error e => .raise s e
              | .ok sensors => processSensors clock cooldown send labId thr sensors s

/-- Iteration `for lab in labs`. -/
def processLabs (clock : Nat → Int) (cooldown : Int) (send : Int → Bool) :
    List Json → BotState → StepOut
  | [], s => StepOut.pure s
  | lab :: rest, s =>
      (processLab clock cooldown send lab s).andThen
        (processLabs clock cooldown send rest)

/-- One iteration of the `while True` body of `poll_alerts` (lines 81–116).
`fetch` is the value `_get("status")` produced this cycle (`_get` itself
never raises: on any request failure it returns the dict
`{"error": "registry unreachable"}`). The boolean records whether the
network fetch was performed at all: with no known chats the cycle only
sleeps. -/
def pollCycle (clock : Nat → Int) (cooldown : Int) (send : Int → Bool)
    (fetch : Json) (s : BotState) : StepOut × Bool :=
  if s.knownChats.isEmpty then
    (StepOut.pure s, false)
  else
    let out : StepOut :=
      match fetch.get "labs" (.arr .nil) with
      | .error e => .raise s e
      | .ok labsJ =>
          match labsJ.iter with
          | .error e => .raise s e
          | .ok labs => processLabs clock cooldown send labs s
    (out, true)

/-- The `_get` result standing for a failed registry fetch. -/
def fetchFailure : Json := jobj [("error", .str "registry unreachable")]

/-- Finitely many iterations of the poll loop, one fetched document per
cycle; an exception in a cycle terminates the loop (the thread dies), so
later fetches are not processed. -/
def pollLoop (clock : Nat → Int) (cooldown : Int) (send : Int → Bool) :
    List Json → BotState → StepOut
  | [], s => StepOut.pure s
  | fetch :: rest, s =>
      ((pollCycle clock cooldown send fetch s).1).andThen
        (pollLoop clock cooldown send rest)

/-! Concrete registry documents, shaped as in the status endpoint
description: a lab carries `lab_id`, `thresholds` and a `sensors` array,
each sensor a `sensor_id` and a `reading` object with `t` and `h`. -/

/-- Sensor document with the given reading fields. -/
def mkSensor (sid : String) (t h : Json) : Json :=
  jobj [("sensor_id", .str sid), ("reading", jobj [("t", t), ("h", h)])]

/-- Lab document with the given threshold bindings and sensors. -/
def mkLab (lid : String) (thr : List (String × Json)) (sensors : List Json) : Json :=
  jobj [("lab_id", .str lid), ("thresholds", jobj thr), ("sensors", jarr sensors)]

/-- Status document with the given labs. -/
def mkFetch (labs : List Json) : Json := jobj [("labs", jarr labs)]

/-- C1 counterexample. The claim says a lab with all four bounds absent
never fires for any reading, in particular t=1000, h=1000. In the source
an absent bound is read as `thr.get("t_high", 999)` (resp. −999), so the
comparison uses the sentinel, and t=1000 > 999 fires temperature-high and
h=1000 > 999 fires humidity-high on the very first cycle. -/
theorem C1_counterexample :
    (pollCycle (fun _ => 1000000) 300 (fun _ => true)
        (mkFetch [mkLab "L2" [] [mkSensor "s1" (.num 1000) (.num 1000)]])
        ⟨[], [1], 0⟩).1.firings
      = [((Json.str "L2", "t_high"), 1000000), ((Json.str "L2", "h_high"), 1000000)] := by
  rfl

/-- C1 amended. With a bound absent the comparison falls back to the
sentinel default 999 (high side) resp. −999 (low side): a sensor whose
readings stay within [−999, 999] never triggers any of the four checks
of a lab with all bounds absent — the whole per-sensor evaluation is a
no-op on the state. (Readings beyond the sentinels do trigger, as the
counterexample shows.) -/
theorem C1_absent_bound_sentinel (clock : Nat → Int) (cooldown : Int) (send : Int → Bool)
    (labId : Json) (sid : String) (fs : JsonFields) (t h : Int) (s : BotState)
    (hth : lookupField fs "t_high" = none) (htl : lookupField fs "t_low" = none)
    (hhh : lookupField fs "h_high" = none) (hhl : lookupField fs "h_low" = none)
    (ht1 : t ≤ 999) (ht2 : -999 ≤ t) (hh1 : h ≤ 999) (hh2 : -999 ≤ h) :
    processSensor clock cooldown send labId (.obj fs) (mkSensor sid (.num t) (.num h)) s
      = StepOut.pure s := by
  have e1 : decide ((999 : Int) < t) = false := decide_eq_false (by omega)
  have e2 : decide (t < (-999 : Int)) = false := decide_eq_false (by omega)
  have e3 : decide ((999 : Int) < h) = false := decide_eq_false (by omega)
  have e4 : decide (h < (-999 : Int)) = false := decide_eq_false (by omega)
  simp [processSensor, mkSensor, jobj, JsonFields.ofList, Json.get, lookupField,
    Json.truthy, checkBound, pyGt, pyLt, hth, htl, hhh, hhl, e1, e2, e3, e4,
    StepOut.andThen, StepOut.pure]

/-- C1 witness: instantiation of the amended theorem at a concrete lab
with no bounds and reading t=999, h=−999. -/
theorem C1_absent_bound_sentinel_witness :
    processSensor (fun _ => 1000000) 300 (fun _ => true) (.str "L2") (.obj .nil)
        (mkSensor "s1" (.num 999) (.num (-999))) ⟨[], [1], 0⟩
      = StepOut.pure ⟨[], [1], 0⟩ :=
  C1_absent_bound_sentinel (fun _ => 1000000) 300 (fun _ => true) (.str "L2") "s1"
    .nil 999 (-999) ⟨[], [1], 0⟩ rfl rfl rfl rfl (by decide) (by decide) (by decide)
    (by decide)

/-- C3 counterexample. The claim says a never-fired (lab, kind) pair uses
process start as the reference point, so a violation seen 10 seconds
after startup is suppressed. In the source the reference is
`_last_alert.get((lab_id, kind), 0)`, i.e. the Unix epoch: with the
process started at time 1000000 and a violating reading at 1000010 (ten
seconds later, cooldown 300), the alert fires instead of being
suppressed. -/
theorem C3_counterexample :
    (pollCycle (fun _ => 1000010) 300 (fun _ => true)
        (mkFetch [mkLab "L1" [("t_high", .num 30)] [mkSensor "a" (.num 35) .null]])
        ⟨[], [1], 0⟩).1.firings
      = [((Json.str "L1", "t_high"), 1000010)] := by
  rfl

/-- C3 amended. For a (lab, kind) pair with no `_last_alert` entry the
decision compares the raw clock value against the cooldown: the pair
fires exactly when the current time is at least the cooldown duration
after the Unix epoch, independently of when the process started (so in
practice a never-fired pair always fires on its first violation). -/
theorem C3_never_fired_uses_epoch (clock : Nat → Int) (cooldown : Int) (s : BotState)
    (labId : Json) (kind : String)
    (h : getKey s.lastAlert (labId, kind) = none) :
    (should_alert clock cooldown s labId kind).1 = decide (cooldown ≤ clock s.tick) := by
  simp [should_alert, lastTimeD0, h]

/-- C3 witness: the amended decision at a concrete never-fired state. -/
theorem C3_never_fired_uses_epoch_witness :
    (should_alert (fun _ => 1000010) 300 ⟨[], [1], 0⟩ (.str "L1") "t_high").1
      = decide ((300 : Int) ≤ 1000010) :=
  C3_never_fired_uses_epoch (fun _ => 1000010) 300 ⟨[], [1], 0⟩ (.str "L1") "t_high" rfl

/-- C8. When `KNOWN_CHATS` is empty the cycle takes the `continue` branch
before `_get("status")`: no fetch happens (the boolean is `false`), no
exception is raised, nothing is sent or fired, and the whole state —
cooldown mapping included — is untouched. -/
theorem C8_empty_recipients_noop (clock : Nat → Int) (cooldown : Int) (send : Int → Bool)
    (fetch : Json) (s : BotState) (h : s.knownChats = []) :
    pollCycle clock cooldown send fetch s = (StepOut.pure s, false) := by
  simp [pollCycle, h]

/-- C8 witness: a concrete cycle with no recipients. -/
theorem C8_empty_recipients_noop_witness :
    pollCycle (fun _ => 1000) 300 (fun _ => true)
        (mkFetch [mkLab "L1" [("t_high", .num 30)] [mkSensor "a" (.num 35) .null]])
        ⟨[], [], 5⟩
      = (StepOut.pure ⟨[], [], 5⟩, false) :=
  C8_empty_recipients_noop (fun _ => 1000) 300 (fun _ => true)
    (mkFetch [mkLab "L1" [("t_high", .num 30)] [mkSensor "a" (.num 35) .null]])
    ⟨[], [], 5⟩ rfl

/-- Clock for the three-cycle scenario of C6: the first cycle samples time
T0 (twice: decision and recording), the second cycle samples T0+10, the
third T0+301 (twice). -/
def scenarioClock (T0 : Int) (n : Nat) : Int :=
  if n ≤ 1 then T0 else if n = 2 then T0 + 10 else T0 + 301

/-- Status document for the C6 scenario: lab L1 with t_high = 30 and one
sensor reading t = 35. -/
def scenarioDoc : Json :=
  mkFetch [mkLab "L1" [("t_high", .num 30)] [mkSensor "a" (.num 35) .null]]

/-- C6. First conjunct: `should_alert` suppresses exactly when the elapsed
time since the recorded last firing is strictly below the cooldown, so an
elapsed time equal to the cooldown fires. Second conjunct: the spec's
scenario — lab L1 with t_high = 30 and reading t = 35, cooldown 300:
the first cycle (at time T0 ≥ 300) fires and records T0; the second cycle
at T0+10 is suppressed; the third at T0+301 fires again. -/
theorem C6_suppress_iff_elapsed_lt_cooldown (T0 : Int) (hT0 : 300 ≤ T0) :
    (∀ (clock : Nat → Int) (cooldown : Int) (s : BotState) (labId : Json) (kind : String),
        (should_alert clock cooldown s labId kind).1 = false ↔
          clock s.tick - lastTimeD0 s labId kind < cooldown)
    ∧ (pollLoop (scenarioClock T0) 300 (fun _ => true)
          [scenarioDoc, scenarioDoc, scenarioDoc] ⟨[], [7], 0⟩).firings
        = [((Json.str "L1", "t_high"), T0), ((Json.str "L1", "t_high"), T0 + 301)] := by
  constructor
  · intro clock cooldown s labId kind
    simp [should_alert, decide_eq_false_iff_not, not_le]
  · have c2 : decide ((300 : Int) ≤ T0 + 10 - T0) = false := decide_eq_false (by omega)
    have c3 : decide ((300 : Int) ≤ T0 + 301 - T0) = true := decide_eq_true (by omega)
    simp [pollLoop, pollCycle, processLabs, processLab, processSensors, processSensor,
      checkBound, should_alert, track_alert, sendLoop, lastTimeD0, getKey, setKey,
      StepOut.andThen, StepOut.pure, StepOut.raise, Json.get, Json.iter, Json.truthy,
      lookupField, pyGt, pyLt, scenarioDoc, scenarioClock, mkFetch, mkLab, mkSensor,
      jobj, jarr, JsonList.ofList, JsonFields.ofList, JsonList.toList, c2, c3, hT0]

/-- C6 witness: the scenario at T0 = 1000000. -/
theorem C6_suppress_iff_elapsed_lt_cooldown_witness :
    (∀ (clock : Nat → Int) (cooldown : Int) (s : BotState) (labId : Json) (kind : String),
        (should_alert clock cooldown s labId kind).1 = false ↔
          clock s.tick - lastTimeD0 s labId kind < cooldown)
    ∧ (pollLoop (scenarioClock 1000000) 300 (fun _ => true)
          [scenarioDoc, scenarioDoc, scenarioDoc] ⟨[], [7], 0⟩).firings
        = [((Json.str "L1", "t_high"), 1000000), ((Json.str "L1", "t_high"), 1000000 + 301)] :=
  C6_suppress_iff_elapsed_lt_cooldown 1000000 (by decide)

/-- Status document with one lab L1 (t_high = 30) and two sensors that
both read t = 35. -/
def twoSensorDoc : Json :=
  mkFetch [mkLab "L1" [("t_high", .num 30)]
    [mkSensor "a" (.num 35) .null, mkSensor "b" (.num 35) .null]]

/-- C4 counterexample. The claim says that when two sensors of the same
lab violate the same bound in one cycle, the second still fires a second
message. In the source `track_alert` runs immediately after the first
firing, so the second sensor's `should_alert` sees an elapsed time of 0
and suppresses: only sensor a's message is sent, and only one firing is
recorded. -/
theorem C4_counterexample :
    (pollCycle (fun _ => 1000) 300 (fun _ => true) twoSensorDoc ⟨[], [1], 0⟩).1
      = ⟨⟨[((Json.str "L1", "t_high"), 1000)], [1], 3⟩,
         [⟨1, Json.str "L1", "t_high", Json.str "a"⟩],
         [((Json.str "L1", "t_high"), 1000)], none⟩ := by
  rfl

/-- C4 amended. With a positive cooldown and no clock advance inside the
cycle, two sensors of the same lab violating the same bound produce
exactly one message and one recorded firing (for the first sensor in
order); the second sensor is suppressed by the cooldown that the first
firing just started. -/
theorem C4_second_sensor_suppressed (c cooldown : Int) (ch : Int)
    (h1 : 0 < cooldown) (h2 : cooldown ≤ c) :
    (pollCycle (fun _ => c) cooldown (fun _ => true) twoSensorDoc ⟨[], [ch], 0⟩).1
      = ⟨⟨[((Json.str "L1", "t_high"), c)], [ch], 3⟩,
         [⟨ch, Json.str "L1", "t_high", Json.str "a"⟩],
         [((Json.str "L1", "t_high"), c)], none⟩ := by
  have h3 : ¬ (cooldown ≤ (0 : Int)) := by omega
  simp [pollCycle, processLabs, processLab, processSensors, processSensor,
    checkBound, should_alert, track_alert, sendLoop, lastTimeD0, getKey, setKey,
    StepOut.andThen, StepOut.pure, StepOut.raise, Json.get, Json.iter, Json.truthy,
    lookupField, pyGt, pyLt, twoSensorDoc, mkFetch, mkLab, mkSensor,
    jobj, jarr, JsonList.ofList, JsonFields.ofList, JsonList.toList, h2, h3]

/-- C4 witness: the amended statement at clock 1000 and cooldown 300. -/
theorem C4_second_sensor_suppressed_witness :
    (pollCycle (fun _ => 1000) 300 (fun _ => true) twoSensorDoc ⟨[], [9], 0⟩).1
      = ⟨⟨[((Json.str "L1", "t_high"), 1000)], [9], 3⟩,
         [⟨9, Json.str "L1", "t_high", Json.str "a"⟩],
         [((Json.str "L1", "t_high"), 1000)], none⟩ :=
  C4_second_sensor_suppressed 1000 300 9 (by decide) (by decide)

/-- Helper: the delivery loop stops at the first chat whose send raises;
chats before it got the message, the failing chat and everything after it
get nothing, and the exception propagates. -/
theorem sendLoop_failure (send : Int → Bool) (pre post : List Int) (c : Int)
    (labId : Json) (kind : String) (sid : Json)
    (hpre : ∀ x ∈ pre, send x = true) (hc : send c = false) :
    sendLoop send (pre ++ c :: post) labId kind sid
      = (pre.map (fun x => ⟨x, labId, kind, sid⟩), some .sendError) := by
  induction pre with
  | nil => simp [sendLoop, hc]
  | cons x xs ih =>
      have hx : send x = true := hpre x (by simp)
      have hxs : ∀ y ∈ xs, send y = true := fun y hy => hpre y (by simp [hy])
      simp [sendLoop, hx, ih hxs]

/-- C5 counterexample. The claim says a failed delivery neither blocks the
remaining recipients nor prevents the cooldown update. In the source
`bot.sendMessage` is called with no try/except: with recipients [1, 2]
and delivery to chat 1 raising, chat 2 — whose own delivery would have
succeeded — receives nothing, no firing is recorded, `_last_alert` stays
empty, and the exception propagates out of the cycle. -/
theorem C5_counterexample :
    (pollCycle (fun _ => 1000) 300 (fun ch => decide (ch ≠ 1)) scenarioDoc
        ⟨[], [1, 2], 0⟩).1
      = ⟨⟨[], [1, 2], 1⟩, [], [], some .sendError⟩
    ∧ decide ((2 : Int) ≠ 1) = true := by
  exact ⟨rfl, rfl⟩

/-- C5 amended. Once the fire decision is made, the delivery loop runs
with no exception handling: recipients before the failing one receive the
message, the failing one and all recipients after it receive nothing, the
(lab, kind) last-fired timestamp is NOT updated, and the exception
escapes `poll_alerts`, terminating the loop — the remaining fetched
cycles are never processed. -/
theorem C5_delivery_failure_aborts (clock : Nat → Int) (cooldown : Int) (send : Int → Bool)
    (pre post : List Int) (c : Int) (rest : List Json)
    (hpre : ∀ x ∈ pre, send x = true) (hc : send c = false)
    (hcd : cooldown ≤ clock 0) :
    pollLoop clock cooldown send (scenarioDoc :: rest) ⟨[], pre ++ c :: post, 0⟩
      = ⟨⟨[], pre ++ c :: post, 1⟩,
         pre.map (fun x => ⟨x, Json.str "L1", "t_high", Json.str "a"⟩),
         [], some .sendError⟩ := by
  have hne : (pre ++ c :: post).isEmpty = false := by cases pre <;> rfl
  simp [pollLoop, pollCycle, processLabs, processLab, processSensors, processSensor,
    checkBound, should_alert, track_alert, lastTimeD0, getKey, setKey,
    StepOut.andThen, StepOut.pure, StepOut.raise, Json.get, Json.iter, Json.truthy,
    lookupField, pyGt, pyLt, scenarioDoc, mkFetch, mkLab, mkSensor,
    jobj, jarr, JsonList.ofList, JsonFields.ofList, JsonList.toList, hne, hcd,
    sendLoop_failure send pre post c _ _ _ hpre hc]

/-- C5 witness: delivery to chat 0 succeeds, chat 1 raises, chat 2 is
never attempted; the cooldown mapping stays empty and the next fetched
document is never processed. -/
theorem C5_delivery_failure_aborts_witness :
    pollLoop (fun _ => 1000) 300 (fun ch => decide (ch ≠ 1))
        (scenarioDoc :: [scenarioDoc]) ⟨[], [0] ++ 1 :: [2], 0⟩
      = ⟨⟨[], [0] ++ 1 :: [2], 1⟩,
         [0].map (fun x => ⟨x, Json.str "L1", "t_high", Json.str "a"⟩),
         [], some .sendError⟩ :=
  C5_delivery_failure_aborts (fun _ => 1000) 300 (fun ch => decide (ch ≠ 1))
    [0] [2] 1 [scenarioDoc] (by decide) (by decide) (by decide)

/-- C7 counterexample. The claim says a malformed response shape is
treated as "no data this cycle" and the loop never raises. With the
response `{"labs": [42]}` the per-lab code runs `lab.get("lab_id")` on
the integer 42 and raises AttributeError, which nothing catches: the
cycle ends in an exception, killing the polling thread. -/
theorem C7_counterexample :
    (pollCycle (fun _ => 1000000) 300 (fun _ => true)
        (jobj [("labs", jarr [.num 42])]) ⟨[], [1], 0⟩).1
      = StepOut.raise ⟨[], [1], 0⟩ .attributeError := by
  rfl

/-- C7 amended. A failed registry fetch is harmless: `_get` swallows the
exception and returns `{"error": ...}`, and any response object without a
"labs" key makes the cycle a state-preserving no-op that fires nothing
and raises nothing. But a malformed response that is not a JSON object —
and likewise one whose labs are not objects — raises an uncaught
exception, and the poll loop terminates instead of retrying: the
remaining cycles are never processed. -/
theorem C7_fetch_failure_noop_malformed_raises :
    (∀ (clock : Nat → Int) (cooldown : Int) (send : Int → Bool) (fs : JsonFields)
        (s : BotState), lookupField fs "labs" = none →
        (pollCycle clock cooldown send (.obj fs) s).1 = StepOut.pure s)
    ∧ (∀ (clock : Nat → Int) (cooldown : Int) (send : Int → Bool) (s : BotState)
        (rest : List Json), s.knownChats ≠ [] →
        pollLoop clock cooldown send (Json.arr .nil :: rest) s
          = StepOut.raise s .attributeError) := by
  constructor
  · intro clock cooldown send fs s h
    unfold pollCycle
    split
    · rfl
    · simp [Json.get, h, Json.iter, processLabs, JsonList.toList]
  · intro clock cooldown send s rest h
    have hne : s.knownChats.isEmpty = false := by
      cases hk : s.knownChats with
      | nil => exact absurd hk h
      | cons a l => rfl
    simp [pollLoop, pollCycle, Json.get, hne, StepOut.andThen, StepOut.raise]

/-- C7 witness: the error document a failed fetch produces is a no-op,
and a top-level JSON array kills the loop. -/
theorem C7_fetch_failure_noop_malformed_raises_witness :
    (pollCycle (fun _ => 1000) 300 (fun _ => true)
        (.obj (JsonFields.ofList [("error", .str "registry unreachable")]))
        ⟨[], [1], 0⟩).1 = StepOut.pure ⟨[], [1], 0⟩
    ∧ pollLoop (fun _ => 1000) 300 (fun _ => true) (Json.arr .nil :: [fetchFailure])
        ⟨[], [1], 0⟩ = StepOut.raise ⟨[], [1], 0⟩ .attributeError :=
  ⟨C7_fetch_failure_noop_malformed_raises.1 (fun _ => 1000) 300 (fun _ => true)
      (JsonFields.ofList [("error", .str "registry unreachable")]) ⟨[], [1], 0⟩ rfl,
   C7_fetch_failure_noop_malformed_raises.2 (fun _ => 1000) 300 (fun _ => true)
      ⟨[], [1], 0⟩ [fetchFailure] (by decide)⟩

/-- Helper: every message the delivery loop produces announces the kind it
was invoked for. -/
theorem sendLoop_sent_kind (send : Int → Bool) (chats : List Int) (labId : Json)
    (kind : String) (sid : Json) :
    ∀ m ∈ (sendLoop send chats labId kind sid).1, m.kind = kind := by
  induction chats with
  | nil => simp [sendLoop]
  | cons c cs ih =>
      by_cases hc : send c
      · simp only [sendLoop, hc, if_true]
        intro m hm
        rcases List.mem_cons.1 hm with h | h
        · rw [h]
        · exact ih m h
      · simp [sendLoop, hc]

/-- Helper: a guarded block records firings only under its own
(lab, kind) key. -/
theorem checkBound_firings_key (clock : Nat → Int) (cooldown : Int) (send : Int → Bool)
    (labId sid thr value : Json) (bk kind : String) (sn : Int) (high : Bool) (s : BotState) :
    ∀ e ∈ (checkBound clock cooldown send labId sid thr value bk kind sn high s).firings,
      e.1 = (labId, kind) := by
  intro e he
  unfold checkBound at he
  repeat' split at he
  all_goals simp_all [StepOut.raise, StepOut.pure, track_alert]

/-- Helper: a guarded block sends only messages of its own kind. -/
theorem checkBound_sent_kind (clock : Nat → Int) (cooldown : Int) (send : Int → Bool)
    (labId sid thr value : Json) (bk kind : String) (sn : Int) (high : Bool) (s : BotState) :
    ∀ m ∈ (checkBound clock cooldown send labId sid thr value bk kind sn high s).sent,
      m.kind = kind := by
  intro m hm
  unfold checkBound at hm
  split at hm
  · simp [StepOut.raise] at hm
  · split at hm
    · simp [StepOut.raise] at hm
    · split at hm
      · split at hm
        split at hm
        · split at hm
          · rename_i x1 ok1 s1 heq1 hok x2 msgs e1 hsl
            refine sendLoop_sent_kind send s1.knownChats labId kind sid m ?_
            rw [hsl]
            simpa using hm
          · rename_i x1 ok1 s1 heq1 hok x2 msgs hsl
            refine sendLoop_sent_kind send s1.knownChats labId kind sid m ?_
            rw [hsl]
            simpa [track_alert] using hm
        · simp [StepOut.pure] at hm
      · simp [StepOut.pure] at hm

/-- Helper: firings of a sequence come from one of the two fragments. -/
theorem mem_firings_andThen {a : StepOut} {f : BotState → StepOut} {e : AlertKey × Int}
    (h : e ∈ (StepOut.andThen a f).firings) :
    e ∈ a.firings ∨ e ∈ (f a.state).firings := by
  unfold StepOut.andThen at h
  split at h
  · exact Or.inl h
  · simpa using h

/-- Helper: messages of a sequence come from one of the two fragments. -/
theorem mem_sent_andThen {a : StepOut} {f : BotState → StepOut} {m : SentMsg}
    (h : m ∈ (StepOut.andThen a f).sent) :
    m ∈ a.sent ∨ m ∈ (f a.state).sent := by
  unfold StepOut.andThen at h
  split at h
  · exact Or.inl h
  · simpa using h

/-- Helper: sequencing after a no-op fragment. -/
theorem pure_andThen (s : BotState) (f : BotState → StepOut) :
    StepOut.andThen (StepOut.pure s) f = f s := by
  simp [StepOut.andThen, StepOut.pure]

/-- Helper: sequencing with a trailing no-op. -/
theorem andThen_pure (a : StepOut) : StepOut.andThen a StepOut.pure = a := by
  cases a with
  | mk st ms fs er => cases er <;> simp [StepOut.andThen, StepOut.pure]

/-- C9. First conjunct: with the bound configured as a number, a guarded
block is a complete no-op (state untouched, no time sample consumed, no
cooldown lookup) exactly when the strict comparison fails — so a value
equal to the bound never triggers, and a value strictly beyond it always
reaches the per-(lab, kind) cooldown decision; `high` covers the two `>`
checks and its negation the two `<` checks symmetrically. Second and
third conjuncts: a sensor whose temperature field is null can only ever
produce humidity alerts, and one whose humidity field is null only
temperature alerts — a null field never participates in a comparison. -/
theorem C9_strict_comparison_selects_kind :
    (∀ (clock : Nat → Int) (cooldown : Int) (send : Int → Bool) (labId sid : Json)
        (fs : JsonFields) (bound v : Int) (bk kind : String) (sn : Int) (high : Bool)
        (s : BotState), lookupField fs bk = some (.num bound) →
        (checkBound clock cooldown send labId sid (.obj fs) (.num v) bk kind sn high s
            = StepOut.pure s
          ↔ ¬ (if high then bound < v else v < bound)))
    ∧ (∀ (clock : Nat → Int) (cooldown : Int) (send : Int → Bool) (labId thr : Json)
        (sid : String) (hv : Json) (s : BotState),
        ∀ e ∈ (processSensor clock cooldown send labId thr (mkSensor sid .null hv) s).firings,
          e.1.2 = "h_high" ∨ e.1.2 = "h_low")
    ∧ (∀ (clock : Nat → Int) (cooldown : Int) (send : Int → Bool) (labId thr : Json)
        (sid : String) (tv : Json) (s : BotState),
        ∀ e ∈ (processSensor clock cooldown send labId thr (mkSensor sid tv .null) s).firings,
          e.1.2 = "t_high" ∨ e.1.2 = "t_low") := by
  refine ⟨?_, ?_, ?_⟩
  · intro clock cooldown send labId sid fs bound v bk kind sn high s hlk
    have hget : Json.get (Json.obj fs) bk (.num sn) = .ok (.num bound) := by
      simp [Json.get, hlk]
    have hcomp : (if high = true then pyGt (.num v) (.num bound) else pyLt (.num v) (.num bound))
        = Except.ok (decide (if high = true then bound < v else v < bound)) := by
      cases high <;> simp [pyGt, pyLt]
    simp only [checkBound, hget, hcomp]
    by_cases hC : (if high = true then bound < v else v < bound)
    · rw [if_pos (decide_eq_true hC)]
      constructor
      · intro heq
        exfalso
        have ht := congrArg (fun o => o.state.tick) heq
        simp only [should_alert, StepOut.pure] at ht
        split at ht
        · split at ht
          · simp at ht
          · simp [track_alert] at ht
            omega
        · simp at ht
      · intro hn
        exact absurd hC hn
    · rw [if_neg (by simp [hC])]
      simp [StepOut.pure, hC]
  · intro clock cooldown send labId thr sid hv s
    have hred : processSensor clock cooldown send labId thr (mkSensor sid .null hv) s
        = (if hv ≠ Json.null then
            (checkBound clock cooldown send labId (.str sid) thr hv "h_high" "h_high" 999 true s).andThen
              (checkBound clock cooldown send labId (.str sid) thr hv "h_low" "h_low" (-999) false)
          else StepOut.pure s) := by
      simp [processSensor, mkSensor, jobj, JsonFields.ofList, Json.get, lookupField,
        Json.truthy, pure_andThen]
    rw [hred]
    by_cases hn : hv = Json.null
    · simp [hn, StepOut.pure]
    · intro e he
      rw [if_pos hn] at he
      rcases mem_firings_andThen he with h | h
      · exact Or.inl (by
          have := checkBound_firings_key clock cooldown send labId (.str sid) thr hv
            "h_high" "h_high" 999 true s e h
          simp [this])
      · exact Or.inr (by
          have := checkBound_firings_key clock cooldown send labId (.str sid) thr hv
            "h_low" "h_low" (-999) false _ e h
          simp [this])
  · intro clock cooldown send labId thr sid tv s
    have hred : processSensor clock cooldown send labId thr (mkSensor sid tv .null) s
        = (if tv ≠ Json.null then
            (checkBound clock cooldown send labId (.str sid) thr tv "t_high" "t_high" 999 true s).andThen
              (checkBound clock cooldown send labId (.str sid) thr tv "t_low" "t_low" (-999) false)
          else StepOut.pure s) := by
      simp [processSensor, mkSensor, jobj, JsonFields.ofList, Json.get, lookupField,
        Json.truthy, andThen_pure]
    rw [hred]
    by_cases hn : tv = Json.null
    · simp [hn, StepOut.pure]
    · intro e he
      rw [if_pos hn] at he
      rcases mem_firings_andThen he with h | h
      · exact Or.inl (by
          have := checkBound_firings_key clock cooldown send labId (.str sid) thr tv
            "t_high" "t_high" 999 true s e h
          simp [this])
      · exact Or.inr (by
          have := checkBound_firings_key clock cooldown send labId (.str sid) thr tv
            "t_low" "t_low" (-999) false _ e h
          simp [this])

/-- C9 witness: a reading exactly at the bound does not trigger
(t = 30 against t_high = 30), and a null-temperature sensor yields no
temperature firings. -/
theorem C9_strict_comparison_selects_kind_witness :
    (checkBound (fun _ => 1000) 300 (fun _ => true) (.str "L1") (.str "a")
        (.obj (JsonFields.ofList [("t_high", .num 30)])) (.num 30)
        "t_high" "t_high" 999 true ⟨[], [1], 0⟩
      = StepOut.pure ⟨[], [1], 0⟩ ↔ ¬ ((30 : Int) < 30))
    ∧ (∀ e ∈ (processSensor (fun _ => 1000) 300 (fun _ => true) (.str "L1")
          (jobj [("h_high", .num 50)]) (mkSensor "a" .null (.num 60))
          ⟨[], [1], 0⟩).firings,
        e.1.2 = "h_high" ∨ e.1.2 = "h_low") :=
  ⟨C9_strict_comparison_selects_kind.1 (fun _ => 1000) 300 (fun _ => true) (.str "L1")
      (.str "a") (JsonFields.ofList [("t_high", .num 30)]) 30 30 "t_high" "t_high"
      999 true ⟨[], [1], 0⟩ rfl,
   C9_strict_comparison_selects_kind.2.1 (fun _ => 1000) 300 (fun _ => true) (.str "L1")
      (jobj [("h_high", .num 50)]) "a" (.num 60) ⟨[], [1], 0⟩⟩

/-! Generic traversal: a predicate on state-transformer fragments that
holds for the no-op and raising fragments, is closed under sequencing and
boolean branching, and holds for every guarded block, holds for the whole
poll loop. Instantiated below with a frame property and with the cooldown
invariant. -/

structure GoodPred (clock : Nat → Int) (cooldown : Int) (send : Int → Bool)
    (P : (BotState → StepOut) → Prop) : Prop where
  hpure : P StepOut.pure
  hraise : ∀ e, P (fun s => StepOut.raise s e)
  hcomp : ∀ f g, P f → P g → P (fun s => StepOut.andThen (f s) g)
  hcond : ∀ (c : BotState → Bool) f g, P f → P g → P (fun s => if c s then f s else g s)
  hcb : ∀ labId sid thr v bk kind sn high,
    P (checkBound clock cooldown send labId sid thr v bk kind sn high)

theorem goodPred_processSensor {clock : Nat → Int} {cooldown : Int} {send : Int → Bool}
    {P : (BotState → StepOut) → Prop} (h : GoodPred clock cooldown send P)
    (labId thr sensor : Json) :
    P (processSensor clock cooldown send labId thr sensor) := by
  rcases h1 : sensor.get "reading" .null with e | rdRaw
  · have he : processSensor clock cooldown send labId thr sensor
        = fun s => StepOut.raise s e := by
      funext s
      simp only [processSensor, h1]
    rw [he]
    exact h.hraise e
  · rcases h2 : sensor.get "sensor_id" .null with e | sid
    · have he : processSensor clock cooldown send labId thr sensor
          = fun s => StepOut.raise s e := by
        funext s
        simp only [processSensor, h1, h2]
      rw [he]
      exact h.hraise e
    · rcases h3 : (if rdRaw.truthy then rdRaw else Json.obj .nil).get "t" .null with e | t
      · have he : processSensor clock cooldown send labId thr sensor
            = fun s => StepOut.raise s e := by
          funext s
          simp only [processSensor, h1, h2, h3]
        rw [he]
        exact h.hraise e
      · rcases h4 : (if rdRaw.truthy then rdRaw else Json.obj .nil).get "h" .null with e | hval
        · have he : processSensor clock cooldown send labId thr sensor
              = fun s => StepOut.raise s e := by
            funext s
            simp only [processSensor, h1, h2, h3, h4]
          rw [he]
          exact h.hraise e
        · have he : processSensor clock cooldown send labId thr sensor = fun s =>
              StepOut.andThen
                (if t ≠ Json.null then
                    StepOut.andThen
                      (checkBound clock cooldown send labId sid thr t "t_high" "t_high" 999 true s)
                      (checkBound clock cooldown send labId sid thr t "t_low" "t_low" (-999) false)
                  else StepOut.pure s)
                (fun sMid =>
                  if hval ≠ Json.null then
                    StepOut.andThen
                      (checkBound clock cooldown send labId sid thr hval "h_high" "h_high" 999 true sMid)
                      (checkBound clock cooldown send labId sid thr hval "h_low" "h_low" (-999) false)
                  else StepOut.pure sMid) := by
            funext s
            simp only [processSensor, h1, h2, h3, h4]
          rw [he]
          refine h.hcomp _ _ ?_ ?_
          · by_cases htn : t = Json.null
            · simp only [htn, ne_eq, not_true_eq_false, if_false]
              exact h.hpure
            · simp only [ne_eq, htn, not_false_eq_true, if_true]
              exact h.hcomp _ _ (h.hcb _ _ _ _ _ _ _ _) (h.hcb _ _ _ _ _ _ _ _)
          · by_cases hhn : hval = Json.null
            · simp only [hhn, ne_eq, not_true_eq_false, if_false]
              exact h.hpure
            · simp only [ne_eq, hhn, not_false_eq_true, if_true]
              exact h.hcomp _ _ (h.hcb _ _ _ _ _ _ _ _) (h.hcb _ _ _ _ _ _ _ _)

theorem goodPred_processSensors {clock : Nat → Int} {cooldown : Int} {send : Int → Bool}
    {P : (BotState → StepOut) → Prop} (h : GoodPred clock cooldown send P)
    (labId thr : Json) (sensors : List Json) :
    P (processSensors clock cooldown send labId thr sensors) := by
  induction sensors with
  | nil => exact h.hpure
  | cons sensor rest ih =>
      have he : processSensors clock cooldown send labId thr (sensor :: rest)
          = fun s => StepOut.andThen (processSensor clock cooldown send labId thr sensor s)
              (processSensors clock cooldown send labId thr rest) := by
        funext s
        simp only [processSensors]
      rw [he]
      exact h.hcomp _ _ (goodPred_processSensor h labId thr sensor) ih

theorem goodPred_processLab {clock : Nat → Int} {cooldown : Int} {send : Int → Bool}
    {P : (BotState → StepOut) → Prop} (h : GoodPred clock cooldown send P)
    (lab : Json) :
    P (processLab clock cooldown send lab) := by
  rcases h1 : lab.get "lab_id" .null with e | labId
  · have he : processLab clock cooldown send lab = fun s => StepOut.raise s e := by
      funext s
      simp only [processLab, h1]
    rw [he]
    exact h.hraise e
  · rcases h2 : lab.get "thresholds" (.obj .nil) with e | thr
    · have he : processLab clock cooldown send lab = fun s => StepOut.raise s e := by
        funext s
        simp only [processLab, h1, h2]
      rw [he]
      exact h.hraise e
    · rcases h3 : lab.get "sensors" (.arr .nil) with e | sensorsJ
      · have he : processLab clock cooldown send lab = fun s => StepOut.raise s e := by
          funext s
          simp only [processLab, h1, h2, h3]
        rw [he]
        exact h.hraise e
      · rcases h4 : sensorsJ.iter with e | sensors
        · have he : processLab clock cooldown send lab = fun s => StepOut.raise s e := by
            funext s
            simp only [processLab, h1, h2, h3, h4]
          rw [he]
          exact h.hraise e
        · have he : processLab clock cooldown send lab
              = processSensors clock cooldown send labId thr sensors := by
            funext s
            simp only [processLab, h1, h2, h3, h4]
          rw [he]
          exact goodPred_processSensors h labId thr sensors

theorem goodPred_processLabs {clock : Nat → Int} {cooldown : Int} {send : Int → Bool}
    {P : (BotState → StepOut) → Prop} (h : GoodPred clock cooldown send P)
    (labs : List Json) :
    P (processLabs clock cooldown send labs) := by
  induction labs with
  | nil => exact h.hpure
  | cons lab rest ih =>
      have he : processLabs clock cooldown send (lab :: rest)
          = fun s => StepOut.andThen (processLab clock cooldown send lab s)
              (processLabs clock cooldown send rest) := by
        funext s
        simp only [processLabs]
      rw [he]
      exact h.hcomp _ _ (goodPred_processLab h lab) ih

theorem goodPred_pollCycle {clock : Nat → Int} {cooldown : Int} {send : Int → Bool}
    {P : (BotState → StepOut) → Prop} (h : GoodPred clock cooldown send P)
    (fetch : Json) :
    P (fun s => (pollCycle clock cooldown send fetch s).1) := by
  have hbody : (fun s => (pollCycle clock cooldown send fetch s).1)
      = fun s => if s.knownChats.isEmpty then StepOut.pure s else
          (match fetch.get "labs" (.arr .nil) with
            | .error e => StepOut.raise s e
            | .ok labsJ =>
                match labsJ.iter with
                | .error e => StepOut.raise s e
                | .ok labs => processLabs clock cooldown send labs s) := by
    funext s
    unfold pollCycle
    split <;> rfl
  rw [hbody]
  refine h.hcond _ _ _ h.hpure ?_
  rcases h1 : fetch.get "labs" (.arr .nil) with e | labsJ
  · show P (fun s => StepOut.raise s e)
    exact h.hraise e
  · show P (fun s => match labsJ.iter with
        | Except.error e => StepOut.raise s e
        | Except.ok labs => processLabs clock cooldown send labs s)
    rcases h2 : labsJ.iter with e | labs
    · show P (fun s => StepOut.raise s e)
      exact h.hraise e
    · show P (fun s => processLabs clock cooldown send labs s)
      exact goodPred_processLabs h labs

theorem goodPred_pollLoop {clock : Nat → Int} {cooldown : Int} {send : Int → Bool}
    {P : (BotState → StepOut) → Prop} (h : GoodPred clock cooldown send P)
    (fetches : List Json) :
    P (pollLoop clock cooldown send fetches) := by
  induction fetches with
  | nil => exact h.hpure
  | cons fetch rest ih =>
      have he : pollLoop clock cooldown send (fetch :: rest)
          = fun s => StepOut.andThen (pollCycle clock cooldown send fetch s).1
              (pollLoop clock cooldown send rest) := by
        funext s
        simp only [pollLoop]
      rw [he]
      exact h.hcomp _ _ (goodPred_pollCycle h fetch) ih

/-- Helper: updating one key of the `_last_alert` dict leaves every other
key's binding unchanged. -/
theorem getKey_setKey_ne (m : List (AlertKey × Int)) (key k : AlertKey) (v : Int)
    (h : k ≠ key) : getKey (setKey m key v) k = getKey m k := by
  induction m with
  | nil => simp [setKey, getKey, Ne.symm h]
  | cons p rest ih =>
      by_cases hp : p.1 = key
      · cases p with
        | mk pk pv =>
            simp only at hp
            simp [setKey, hp, getKey, h, Ne.symm h]
      · cases p with
        | mk pk pv =>
            simp only at hp
            simp only [setKey, hp, if_false, getKey]
            by_cases hk : pk = k
            · simp [hk]
            · simp [hk, ih]

/-- Helper: updating a key makes its binding the new value. -/
theorem getKey_setKey_self (m : List (AlertKey × Int)) (key : AlertKey) (v : Int) :
    getKey (setKey m key v) key = some v := by
  induction m with
  | nil => simp [setKey, getKey]
  | cons p rest ih =>
      cases p with
      | mk pk pv =>
          by_cases hp : pk = key
          · simp [setKey, hp, getKey]
          · simp [setKey, hp, getKey, ih]

/-- Helper: a raised exception short-circuits the rest of the cycle. -/
theorem andThen_eq_of_err_some {a : StepOut} {g : BotState → StepOut} {e : PyErr}
    (h : a.err = some e) : StepOut.andThen a g = a := by
  simp [StepOut.andThen, h]

/-- Helper: without an exception, sequencing chains the state and
concatenates the outputs. -/
theorem andThen_eq_of_err_none {a : StepOut} {g : BotState → StepOut}
    (h : a.err = none) : StepOut.andThen a g
      = ⟨(g a.state).state, a.sent ++ (g a.state).sent,
         a.firings ++ (g a.state).firings, (g a.state).err⟩ := by
  simp [StepOut.andThen, h]

/-- Frame property of a fragment: the recipient set is never written, a
`_last_alert` key is changed only by a firing recorded under that key,
and a fragment with no firings leaves `_last_alert` untouched. -/
def Frames (f : BotState → StepOut) : Prop :=
  ∀ s : BotState,
    (f s).state.knownChats = s.knownChats ∧
    (∀ k : AlertKey, (∀ e ∈ (f s).firings, e.1 ≠ k) →
        getKey (f s).state.lastAlert k = getKey s.lastAlert k) ∧
    ((f s).firings = [] → (f s).state.lastAlert = s.lastAlert)

/-- The frame property holds for all the building blocks of the poll
loop. -/
theorem frames_goodPred (clock : Nat → Int) (cooldown : Int) (send : Int → Bool) :
    GoodPred clock cooldown send Frames := by
  constructor
  · intro s
    simp [StepOut.pure]
  · intro e s
    simp [StepOut.raise]
  · intro f g hf hg s
    rcases hf s with ⟨hf1, hf2, hf3⟩
    have hbeta : (fun s => StepOut.andThen (f s) g) s = StepOut.andThen (f s) g := rfl
    rw [hbeta]
    cases herr : (f s).err with
    | some e =>
        rw [andThen_eq_of_err_some herr]
        exact ⟨hf1, hf2, hf3⟩
    | none =>
        rw [andThen_eq_of_err_none herr]
        rcases hg (f s).state with ⟨hg1, hg2, hg3⟩
        refine ⟨hg1.trans hf1, ?_, ?_⟩
        · intro k hk
          simp only [List.mem_append] at hk
          have hk1 : ∀ e ∈ (f s).firings, e.1 ≠ k := fun e he => hk e (Or.inl he)
          have hk2 : ∀ e ∈ (g (f s).state).firings, e.1 ≠ k := fun e he => hk e (Or.inr he)
          exact (hg2 k hk2).trans (hf2 k hk1)
        · intro hemp
          simp only [List.append_eq_nil] at hemp
          exact (hg3 hemp.2).trans (hf3 hemp.1)
  · intro c f g hf hg s
    by_cases hc : c s
    · simpa [hc] using hf s
    · simpa [hc] using hg s
  · intro labId sid thr v bk kind sn high s
    simp only [checkBound, should_alert, track_alert]
    repeat' split
    all_goals
      simp_all [StepOut.raise, StepOut.pure]
    all_goals
      intro a b hk
      exact getKey_setKey_ne _ _ _ _ (by
        intro hek
        rcases Prod.mk.injEq .. ▸ hek with ⟨ha, hb⟩
        exact hk ha.symm hb.symm)

/-- C10. Over a whole poll cycle: the recipient set is unchanged; any
(lab, kind) key under which no firing was recorded has the same
`_last_alert` binding as before — so a firing for (L, k) modifies only
the (L, k) entry, the other three kinds of the same lab included — and a
cycle with no firings leaves the whole cooldown mapping unchanged. -/
theorem C10_firing_frame (clock : Nat → Int) (cooldown : Int) (send : Int → Bool)
    (fetch : Json) (s : BotState) :
    ((pollCycle clock cooldown send fetch s).1.state.knownChats = s.knownChats)
    ∧ (∀ k : AlertKey, (∀ e ∈ (pollCycle clock cooldown send fetch s).1.firings, e.1 ≠ k) →
        getKey (pollCycle clock cooldown send fetch s).1.state.lastAlert k
          = getKey s.lastAlert k)
    ∧ ((pollCycle clock cooldown send fetch s).1.firings = [] →
        (pollCycle clock cooldown send fetch s).1.state.lastAlert = s.lastAlert) :=
  goodPred_pollCycle (frames_goodPred clock cooldown send) fetch s

/-- C10 witness: the scenario cycle fires only (L1, t_high), so the
never-fired key (L2, t_high) keeps its original (absent) binding. -/
theorem C10_firing_frame_witness :
    getKey (pollCycle (fun _ => 1000) 300 (fun _ => true) scenarioDoc
        (BotState.mk [] [1] 0)).1.state.lastAlert (Json.str "L2", "t_high")
      = getKey (BotState.mk [] [1] 0).lastAlert (Json.str "L2", "t_high") :=
  (C10_firing_frame (fun _ => 1000) 300 (fun _ => true) scenarioDoc
      (BotState.mk [] [1] 0)).2.1 (Json.str "L2", "t_high") (by decide)

/-- Timestamps recorded for one (lab, kind) key, in firing order. -/
def keyTimes (fs : List (AlertKey × Int)) (k : AlertKey) : List Int :=
  (fs.filter (fun e => decide (e.1 = k))).map Prod.snd

/-- Timestamps each at least `cd` after the previous one, the first at
least `cd` after `base`. -/
def spacedFrom (cd : Int) : Int → List Int → Prop
  | _, [] => True
  | base, t :: rest => base + cd ≤ t ∧ spacedFrom cd t rest

/-- Helper: per-key timestamps of concatenated firing logs. -/
theorem keyTimes_append (fs gs : List (AlertKey × Int)) (k : AlertKey) :
    keyTimes (fs ++ gs) k = keyTimes fs k ++ keyTimes gs k := by
  simp [keyTimes, List.filter_append]

/-- Helper: a singleton log under the same key. -/
theorem keyTimes_single_self (k : AlertKey) (t : Int) : keyTimes [(k, t)] k = [t] := by
  simp [keyTimes]

/-- Helper: a singleton log under a different key. -/
theorem keyTimes_single_ne (q k : AlertKey) (t : Int) (h : q ≠ k) :
    keyTimes [(q, t)] k = [] := by
  simp [keyTimes, h]

/-- Last element of a list, with a default for the empty list. -/
def lastD : List Int → Int → Int
  | [], d => d
  | x :: xs, _ => lastD xs x

/-- Helper: the last element after appending. -/
theorem lastD_concat (l : List Int) (a d : Int) : lastD (l ++ [a]) d = a := by
  induction l generalizing d with
  | nil => rfl
  | cons x xs ih => exact ih x

/-- Helper: appending a timestamp one cooldown after the last keeps the
spacing. -/
theorem spacedFrom_concat (cd : Int) (l : List Int) (b t : Int)
    (hsp : spacedFrom cd b l) (ht : lastD l b + cd ≤ t) :
    spacedFrom cd b (l ++ [t]) := by
  induction l generalizing b with
  | nil => exact ⟨ht, trivial⟩
  | cons x xs ih =>
      rcases hsp with ⟨h1, h2⟩
      exact ⟨h1, ih x h2 ht⟩

/-- Helper: every element of a spaced list is at least one cooldown
after the base. -/
theorem spacedFrom_mem (cd b : Int) (l : List Int) (hcd : 0 ≤ cd)
    (h : spacedFrom cd b l) : ∀ x ∈ l, b + cd ≤ x := by
  induction l generalizing b with
  | nil => simp
  | cons t rest ih =>
      rcases h with ⟨h1, h2⟩
      intro x hx
      rcases List.mem_cons.1 hx with rfl | hx
      · exact h1
      · have := ih t h2 x hx
        omega

/-- Helper: a spaced list is pairwise separated by the cooldown. -/
theorem spacedFrom_pairwise (cd b : Int) (l : List Int) (hcd : 0 ≤ cd)
    (h : spacedFrom cd b l) : l.Pairwise (fun a c => a + cd ≤ c) := by
  induction l generalizing b with
  | nil => exact List.Pairwise.nil
  | cons t rest ih =>
      rcases h with ⟨h1, h2⟩
      exact List.Pairwise.cons (spacedFrom_mem cd t rest hcd h2) (ih t h2)

/-- Invariant tying the `_last_alert` dict to the firing log: per key,
recorded timestamps are cooldown-spaced (counting from 0, the default for
a never-fired key) and the dict holds the last recorded timestamp. -/
def CooldownInv (cd : Int) (m : List (AlertKey × Int)) (fs : List (AlertKey × Int)) : Prop :=
  ∀ k : AlertKey, spacedFrom cd 0 (keyTimes fs k) ∧
    (getKey m k).getD 0 = lastD (keyTimes fs k) 0

/-- A fragment preserves the cooldown invariant, extending the firing
log with its own firings. -/
def PresInv (cd : Int) (f : BotState → StepOut) : Prop :=
  ∀ s fs, CooldownInv cd s.lastAlert fs →
    CooldownInv cd (f s).state.lastAlert (fs ++ (f s).firings)

/-- The cooldown invariant is preserved by all the building blocks of
the poll loop, for a monotone clock: a firing is recorded only when the
`should_alert` guard saw a full cooldown elapse since the key's last
recorded timestamp. -/
theorem presInv_goodPred (clock : Nat → Int) (cooldown : Int) (send : Int → Bool)
    (hmono : ∀ i j : Nat, i ≤ j → clock i ≤ clock j) :
    GoodPred clock cooldown send (PresInv cooldown) := by
  constructor
  · intro s fs hInv
    simpa [StepOut.pure] using hInv
  · intro e s fs hInv
    simpa [StepOut.raise] using hInv
  · intro f g hf hg s fs hInv
    have hbeta : (fun s => StepOut.andThen (f s) g) s = StepOut.andThen (f s) g := rfl
    rw [hbeta]
    cases herr : (f s).err with
    | some e =>
        rw [andThen_eq_of_err_some herr]
        exact hf s fs hInv
    | none =>
        rw [andThen_eq_of_err_none herr]
        have h2 := hg (f s).state (fs ++ (f s).firings) (hf s fs hInv)
        simpa [List.append_assoc] using h2
  · intro c f g hf hg s fs hInv
    by_cases hc : c s
    · simpa [hc] using hf s fs hInv
    · simpa [hc] using hg s fs hInv
  · intro labId sid thr v bk kind sn high s fs hInv
    simp only [checkBound, should_alert, track_alert]
    split
    · simpa [StepOut.raise] using hInv
    · split
      · simpa [StepOut.raise] using hInv
      · split
        · split
          · split
            · simpa using hInv
            · rename_i hcond x msgs hsl
              have hc : cooldown ≤ clock s.tick - lastTimeD0 s labId kind :=
                of_decide_eq_true hcond
              intro k
              rcases hInv k with ⟨hsp, hlast⟩
              simp only [keyTimes_append]
              by_cases hkk : k = (labId, kind)
              · subst hkk
                rw [keyTimes_single_self]
                constructor
                · refine spacedFrom_concat _ _ _ _ hsp ?_
                  have h2 : clock s.tick ≤ clock (s.tick + 1) :=
                    hmono _ _ (Nat.le_succ _)
                  unfold lastTimeD0 at hc
                  omega
                · simp only [getKey_setKey_self, Option.getD_some, lastD_concat]
              · rw [keyTimes_single_ne _ _ _ (Ne.symm hkk), List.append_nil]
                refine ⟨hsp, ?_⟩
                rw [getKey_setKey_ne _ _ _ _ hkk]
                exact hlast
          · simpa [StepOut.pure] using hInv
        · simpa [StepOut.pure] using hInv

/-- C2. Starting from the initial (empty) cooldown state, over any run
of the poll loop — any number of cycles, any fetched documents, any
delivery outcomes — the firing timestamps recorded for one (lab, kind)
key are pairwise at least one cooldown apart, no matter how many
consecutive cycles observe a violating reading. -/
theorem C2_cooldown_spacing (clock : Nat → Int) (cooldown : Int) (send : Int → Bool)
    (fetches : List Json) (chats : List Int)
    (hmono : ∀ i j : Nat, i ≤ j → clock i ≤ clock j) (hcd : 0 ≤ cooldown) :
    ∀ k : AlertKey,
      (keyTimes (pollLoop clock cooldown send fetches (BotState.mk [] chats 0)).firings
          k).Pairwise (fun a b => a + cooldown ≤ b) := by
  have hP : PresInv cooldown (pollLoop clock cooldown send fetches) :=
    goodPred_pollLoop (presInv_goodPred clock cooldown send hmono) fetches
  have hInv0 : CooldownInv cooldown (BotState.mk [] chats 0).lastAlert [] := by
    intro k
    exact ⟨trivial, rfl⟩
  have h := hP (BotState.mk [] chats 0) [] hInv0
  intro k
  have hsp := (h k).1
  simp only [List.nil_append] at hsp
  exact spacedFrom_pairwise cooldown 0 _ hcd hsp

/-- C2 witness: the three-cycle scenario records firings at 1000000 and
1000301 for (L1, t_high), pairwise 300 apart. -/
theorem C2_cooldown_spacing_witness :
    (keyTimes (pollLoop (scenarioClock 1000000) 300 (fun _ => true)
        [scenarioDoc, scenarioDoc, scenarioDoc] (BotState.mk [] [7] 0)).firings
        (Json.str "L1", "t_high")).Pairwise (fun a b => a + 300 ≤ b) :=
  C2_cooldown_spacing (scenarioClock 1000000) 300 (fun _ => true)
    [scenarioDoc, scenarioDoc, scenarioDoc] [7]
    (fun i j hij => by
      unfold scenarioClock
      split <;> split <;> omega)
    (by decide) (Json.str "L1", "t_high")
